import Mathlib

/-!
Shallow embedding of the update-dispatch-and-shutdown engine of the
teloxide repository, covering the two dispatcher variants in
src/dispatching/dispatcher.rs and src/dispatching2/dispatcher.rs:
the tri-state shutdown coordinator, the pump loop epilogue, the
shutdown-check timeout computation, the fixed-kind fan-out router and
the predicate-chain router. Panics (unreachable!, expect) are modelled
explicitly via the PanicOr wrapper; the atomic register is modelled by
explicit state passing, faithful to its sequentially consistent
compare-exchange, load and store operations.
-/

namespace Teloxide

/-- Result of a Rust computation that may panic (unreachable!, expect). -/
inductive PanicOr (α : Type) where
  | panic (msg : String)
  | ok (a : α)
  deriving DecidableEq, Repr

/-- The tri-state lifecycle register, enum ShutdownState in
src/dispatching/dispatcher.rs (dispatching2 reuses it under the name
DispatcherState with Idle for IsntRunning). -/
inductive ShutdownState where
  | Running
  | ShuttingDown
  | IsntRunning
  deriving DecidableEq, Repr, Fintype

/-- Discriminant of a ShutdownState variant, as produced by the Rust
cast in the repr(u8) enum (declaration order, starting at 0). -/
def ShutdownState.toU8 : ShutdownState → Nat
  | .Running => 0
  | .ShuttingDown => 1
  | .IsntRunning => 2

/-- ShutdownState.from_u8: decodes a raw register byte; the catch-all
arm of the Rust match is unreachable! and is modelled by none. -/
def ShutdownState.fromU8 (n : Nat) : Option ShutdownState :=
  if n = ShutdownState.toU8 .Running then some .Running
  else if n = ShutdownState.toU8 .ShuttingDown then some .ShuttingDown
  else if n = ShutdownState.toU8 .IsntRunning then some .IsntRunning
  else none

/-- Error returned by shutdown_inner when dispatching is not running. -/
inductive ShutdownError where
  | IsntRunning
  deriving DecidableEq, Repr

/-- AtomicShutdownState.compare_exchange at the decoded level: if the
register holds current, write new and return Ok of the old value,
otherwise leave it unchanged and return Err of the actual value. The
pair carries the register content after the operation. -/
def stateCompareExchange (s current new : ShutdownState) :
    Except ShutdownState ShutdownState × ShutdownState :=
  if s = current then (Except.ok s, new) else (Except.error s, s)

def unreachableShutdownInnerMsg : String := "shutdown_inner: Err(Running) is unreachable"

/-- shutdown_inner (src/dispatching/dispatcher.rs): compare-exchange
Running to ShuttingDown; Ok or Err(ShuttingDown) succeed,
Err(IsntRunning) fails with ShutdownError.IsntRunning, Err(Running) is
unreachable!. State-passing model over the shared register. -/
def shutdown_inner (s : ShutdownState) :
    PanicOr (Except ShutdownError Unit) × ShutdownState :=
  match stateCompareExchange s .Running .ShuttingDown with
  | (Except.ok _, s') => (PanicOr.ok (Except.ok ()), s')
  | (Except.error .ShuttingDown, s') => (PanicOr.ok (Except.ok ()), s')
  | (Except.error .IsntRunning, s') =>
      (PanicOr.ok (Except.error ShutdownError.IsntRunning), s')
  | (Except.error .Running, s') => (PanicOr.panic unreachableShutdownInnerMsg, s')

/-- ShutdownToken: shares the coordinator register and the Notify used
to broadcast completion. The Notify primitive is identified by a
number so that two awaitables of the same completion are equal. -/
structure ShutdownToken where
  shutdown_state : ShutdownState
  shutdown_notify_back : Nat
  deriving DecidableEq, Repr

/-- ShutdownToken.shutdown: runs shutdown_inner and, on success, maps
the unit to a future awaiting shutdown_notify_back.notified(); the
returned number identifies the Notify the future awaits. -/
def ShutdownToken.shutdown (t : ShutdownToken) :
    PanicOr (Except ShutdownError Nat) × ShutdownToken :=
  match shutdown_inner t.shutdown_state with
  | (PanicOr.ok (Except.ok ()), s') =>
      (PanicOr.ok (Except.ok t.shutdown_notify_back), { t with shutdown_state := s' })
  | (PanicOr.ok (Except.error e), s') =>
      (PanicOr.ok (Except.error e), { t with shutdown_state := s' })
  | (PanicOr.panic m, s') => (PanicOr.panic m, { t with shutdown_state := s' })

def doubleStartPanicMsg : String := "Dispatching is already running"

/-- Pump start in Dispatcher::dispatch_with_listener (both variants):
compare-exchange IsntRunning (Idle) to Running; on failure the run
aborts via unreachable! (double start). Returns the register content
after the operation on success. -/
def dispatch_start (s : ShutdownState) : PanicOr ShutdownState :=
  match stateCompareExchange s .IsntRunning .Running with
  | (Except.ok _, s') => PanicOr.ok s'
  | (Except.error _, _) => PanicOr.panic doubleStartPanicMsg

/-- The three operations that ever mutate the coordinator register:
the pump-start compare-exchange, a shutdown request
(shutdown_inner), and the pump epilogue store of IsntRunning. -/
inductive CoordEvent where
  | startCAS
  | requestShutdown
  | storeIdle
  deriving DecidableEq, Repr, Fintype

/-- Effect of one coordinator operation on the decoded register. -/
def coordStep (s : ShutdownState) (e : CoordEvent) : ShutdownState :=
  match e with
  | .startCAS => (stateCompareExchange s .IsntRunning .Running).2
  | .requestShutdown => (shutdown_inner s).2
  | .storeIdle => .IsntRunning

/-- Effect of one coordinator operation on the raw u8 register, via
the encodings actually written by the Rust code. -/
def rawCompareExchange (r cur new : Nat) : Nat :=
  if r = cur then new else r

/-- Raw-register view of coordStep: every write stores a variant
discriminant. -/
def rawStep (r : Nat) (e : CoordEvent) : Nat :=
  match e with
  | .startCAS =>
      rawCompareExchange r (ShutdownState.toU8 .IsntRunning) (ShutdownState.toU8 .Running)
  | .requestShutdown =>
      rawCompareExchange r (ShutdownState.toU8 .Running) (ShutdownState.toU8 .ShuttingDown)
  | .storeIdle => ShutdownState.toU8 .IsntRunning

/-- Raw register content after a sequence of coordinator operations,
starting from the Default (IsntRunning) initial value. -/
def rawRun (es : List CoordEvent) : Nat :=
  es.foldl rawStep (ShutdownState.toU8 .IsntRunning)

/-- Observable actions of the pump after its read loop exits. -/
inductive PumpEvent where
  | waitForHandlers
  | notifyWaiters
  | storeState (s : ShutdownState)
  deriving DecidableEq, Repr

/-- Epilogue of Dispatcher::dispatch_with_listener in
src/dispatching/dispatcher.rs, lines 318-331: wait for all spawned
workers, then, when the loop exited in the ShuttingDown state,
broadcast completion via notify_waiters, and finally store
IsntRunning. The argument is the register content at loop exit. -/
def pump_epilogue (s : ShutdownState) : List PumpEvent :=
  [PumpEvent.waitForHandlers] ++
    (if s = ShutdownState.ShuttingDown then [PumpEvent.notifyWaiters] else []) ++
    [PumpEvent.storeState .IsntRunning]

/-- Epilogue of Dispatcher::dispatch_with_listener in
src/dispatching2/dispatcher.rs, lines 181-192: same as pump_epilogue
but with no spawned workers to wait for. -/
def pump_epilogue2 (s : ShutdownState) : List PumpEvent :=
  (if s = ShutdownState.ShuttingDown then [PumpEvent.notifyWaiters] else []) ++
    [PumpEvent.storeState .IsntRunning]

/-- Annotates each epilogue event with the register content at the
moment the event occurs (only storeState changes the register). -/
def annotateStates (s : ShutdownState) : List PumpEvent → List (PumpEvent × ShutdownState)
  | [] => []
  | e :: es =>
      (e, s) :: annotateStates (match e with | .storeState s' => s' | _ => s) es

/-- Register content after the epilogue has run. -/
def finalState (s : ShutdownState) (es : List PumpEvent) : ShutdownState :=
  es.foldl (fun st e => match e with | .storeState s' => s' | _ => st) s

/-- Durations are modelled in nanoseconds; Rust Duration saturates at
u64 seconds plus sub-second nanoseconds. -/
def durationMax : Nat := (2 ^ 64 - 1) * 1000000000 + 999999999

/-- Duration::checked_add. -/
def durationCheckedAdd (a b : Nat) : Option Nat :=
  if a + b ≤ durationMax then some (a + b) else none

/-- MIN_SHUTDOWN_CHECK_TIMEOUT, one second. -/
def minShutdownCheckTimeout : Nat := 1000000000

/-- shutdown_check_timeout_for (src/dispatching/dispatcher.rs, lines
540-550): the timeout hint of the listener, defaulting to zero,
checked_add one second, falling back to the bare hint on overflow. -/
def shutdown_check_timeout_for (timeout_hint : Option Nat) : Nat :=
  let shutdown_check_timeout := timeout_hint.getD 0
  (durationCheckedAdd shutdown_check_timeout minShutdownCheckTimeout).getD
    shutdown_check_timeout

/-- Read-timeout as the specification words it: the maximum of the
declared poll-timeout hint (zero when absent) and the fixed floor.
Stated from the spec, to be compared against the source definition. -/
def spec_read_timeout (timeout_hint : Option Nat) : Nat :=
  max (timeout_hint.getD 0) minShutdownCheckTimeout

/-- State of the pump loop relevant to the consume-once stop guard:
the Option holding the stop token (Some until taken) and the number of
times token.stop() has been invoked. -/
structure PumpLoopState (τ : Type) where
  stop_token : Option τ
  stops_invoked : Nat
  deriving DecidableEq, Repr

/-- Shutdown check run at the end of each loop iteration (lines
309-315 of src/dispatching/dispatcher.rs, lines 171-177 of
src/dispatching2/dispatcher.rs): when the observed register content is
ShuttingDown and the stop token has not been taken yet, take it and
invoke stop. -/
def shutdown_check {τ : Type} (s : PumpLoopState τ) (observed : ShutdownState) :
    PumpLoopState τ :=
  if observed = ShutdownState.ShuttingDown then
    match s.stop_token with
    | some _ => { stop_token := none, stops_invoked := s.stops_invoked + 1 }
    | none => s
  else s

/-- Pump loop state after a run whose iterations observed the given
sequence of register contents. -/
def run_checks {τ : Type} (s : PumpLoopState τ) (obs : List ShutdownState) :
    PumpLoopState τ :=
  obs.foldl shutdown_check s

/-- UpdateKind: the closed discriminated union of update categories.
The payload types (Message, InlineQuery, ...) are abstracted to a
single type parameter, since routing never inspects payloads. -/
inductive UpdateKind (α : Type) where
  | Message (m : α)
  | EditedMessage (m : α)
  | ChannelPost (m : α)
  | EditedChannelPost (m : α)
  | InlineQuery (q : α)
  | ChosenInlineResult (r : α)
  | CallbackQuery (q : α)
  | ShippingQuery (q : α)
  | PreCheckoutQuery (q : α)
  | Poll (p : α)
  | PollAnswer (a : α)
  | MyChatMember (c : α)
  | ChatMember (c : α)
  deriving DecidableEq, Repr

/-- Payload-free tag of an update kind, used to index queues. -/
inductive KindTag where
  | Message
  | EditedMessage
  | ChannelPost
  | EditedChannelPost
  | InlineQuery
  | ChosenInlineResult
  | CallbackQuery
  | ShippingQuery
  | PreCheckoutQuery
  | Poll
  | PollAnswer
  | MyChatMember
  | ChatMember
  deriving DecidableEq, Repr

def tagOf {α : Type} : UpdateKind α → KindTag
  | .Message _ => .Message
  | .EditedMessage _ => .EditedMessage
  | .ChannelPost _ => .ChannelPost
  | .EditedChannelPost _ => .EditedChannelPost
  | .InlineQuery _ => .InlineQuery
  | .ChosenInlineResult _ => .ChosenInlineResult
  | .CallbackQuery _ => .CallbackQuery
  | .ShippingQuery _ => .ShippingQuery
  | .PreCheckoutQuery _ => .PreCheckoutQuery
  | .Poll _ => .Poll
  | .PollAnswer _ => .PollAnswer
  | .MyChatMember _ => .MyChatMember
  | .ChatMember _ => .ChatMember

def payloadOf {α : Type} : UpdateKind α → α
  | .Message m => m
  | .EditedMessage m => m
  | .ChannelPost m => m
  | .EditedChannelPost m => m
  | .InlineQuery q => q
  | .ChosenInlineResult r => r
  | .CallbackQuery q => q
  | .ShippingQuery q => q
  | .PreCheckoutQuery q => q
  | .Poll p => p
  | .PollAnswer a => a
  | .MyChatMember c => c
  | .ChatMember c => c

/-- Variant strings passed to send by process_update, verbatim from
the source (including the truncated CallbackQuer string and the
copy-pasted MyChatMember string in the ChatMember arm). -/
def variantOf {α : Type} : UpdateKind α → String
  | .Message _ => "UpdateKind::Message"
  | .EditedMessage _ => "UpdateKind::EditedMessage"
  | .ChannelPost _ => "UpdateKind::ChannelPost"
  | .EditedChannelPost _ => "UpdateKind::EditedChannelPost"
  | .InlineQuery _ => "UpdateKind::InlineQuery"
  | .ChosenInlineResult _ => "UpdateKind::ChosenInlineResult"
  | .CallbackQuery _ => "UpdateKind::CallbackQuer"
  | .ShippingQuery _ => "UpdateKind::ShippingQuery"
  | .PreCheckoutQuery _ => "UpdateKind::PreCheckoutQuery"
  | .Poll _ => "UpdateKind::Poll"
  | .PollAnswer _ => "UpdateKind::PollAnswer"
  | .MyChatMember _ => "UpdateKind::MyChatMember"
  | .ChatMember _ => "UpdateKind::MyChatMember"

/-- One unbounded mpsc channel feeding a worker: whether the worker
still holds the receiving end, and the items sent so far in order. -/
structure Channel (α : Type) where
  rx_alive : Bool
  buf : List α
  deriving DecidableEq, Repr

/-- Tx: the optional sender stored per kind in the dispatcher. -/
abbrev Tx (α : Type) : Type := Option (Channel α)

/-- Observable effects of processing one item in the fixed-kind pump. -/
inductive DispatchEvent (ε : Type) where
  | listenerErrorHandled (e : ε)
  | sendFailedLogged (variant : String)
  deriving DecidableEq, Repr

/-- send (src/dispatching/dispatcher.rs, lines 564-578): no queue
registered means a silent no-op; a send onto a channel whose receiver
is gone logs an error and drops the update; otherwise the update is
appended to the queue. -/
def send {α ε : Type} (tx : Tx α) (update : α) (variant : String) :
    Tx α × List (DispatchEvent ε) :=
  match tx with
  | none => (none, [])
  | some ch =>
      if ch.rx_alive then (some { ch with buf := ch.buf ++ [update] }, [])
      else (some ch, [DispatchEvent.sendFailedLogged variant])

/-- The fixed-kind dispatcher: one optional queue per update kind
(src/dispatching/dispatcher.rs, struct Dispatcher). -/
structure Dispatcher (α : Type) where
  messages_queue : Tx α
  edited_messages_queue : Tx α
  channel_posts_queue : Tx α
  edited_channel_posts_queue : Tx α
  inline_queries_queue : Tx α
  chosen_inline_results_queue : Tx α
  callback_queries_queue : Tx α
  shipping_queries_queue : Tx α
  pre_checkout_queries_queue : Tx α
  polls_queue : Tx α
  poll_answers_queue : Tx α
  my_chat_members_queue : Tx α
  chat_members_queue : Tx α
  deriving DecidableEq, Repr

/-- The queue a given tag routes to. -/
def queueOf {α : Type} (d : Dispatcher α) : KindTag → Tx α
  | .Message => d.messages_queue
  | .EditedMessage => d.edited_messages_queue
  | .ChannelPost => d.channel_posts_queue
  | .EditedChannelPost => d.edited_channel_posts_queue
  | .InlineQuery => d.inline_queries_queue
  | .ChosenInlineResult => d.chosen_inline_results_queue
  | .CallbackQuery => d.callback_queries_queue
  | .ShippingQuery => d.shipping_queries_queue
  | .PreCheckoutQuery => d.pre_checkout_queries_queue
  | .Poll => d.polls_queue
  | .PollAnswer => d.poll_answers_queue
  | .MyChatMember => d.my_chat_members_queue
  | .ChatMember => d.chat_members_queue

/-- Replaces the queue a given tag routes to. -/
def setQueue {α : Type} (d : Dispatcher α) : KindTag → Tx α → Dispatcher α
  | .Message, q => { d with messages_queue := q }
  | .EditedMessage, q => { d with edited_messages_queue := q }
  | .ChannelPost, q => { d with channel_posts_queue := q }
  | .EditedChannelPost, q => { d with edited_channel_posts_queue := q }
  | .InlineQuery, q => { d with inline_queries_queue := q }
  | .ChosenInlineResult, q => { d with chosen_inline_results_queue := q }
  | .CallbackQuery, q => { d with callback_queries_queue := q }
  | .ShippingQuery, q => { d with shipping_queries_queue := q }
  | .PreCheckoutQuery, q => { d with pre_checkout_queries_queue := q }
  | .Poll, q => { d with polls_queue := q }
  | .PollAnswer, q => { d with poll_answers_queue := q }
  | .MyChatMember, q => { d with my_chat_members_queue := q }
  | .ChatMember, q => { d with chat_members_queue := q }

/-- Dispatcher::process_update (src/dispatching/dispatcher.rs, lines
341-436): a listener error goes to the update_listener_error_handler
and nothing else happens; an Ok update is matched on its kind and sent
to the corresponding queue, with the variant string of the source. -/
def Dispatcher.process_update {α ε : Type} (d : Dispatcher α)
    (update : Except ε (UpdateKind α)) : Dispatcher α × List (DispatchEvent ε) :=
  match update with
  | Except.error e => (d, [DispatchEvent.listenerErrorHandled e])
  | Except.ok (UpdateKind.Message m) =>
      let r := send d.messages_queue m (variantOf (UpdateKind.Message m))
      ({ d with messages_queue := r.1 }, r.2)
  | Except.ok (UpdateKind.EditedMessage m) =>
      let r := send d.edited_messages_queue m (variantOf (UpdateKind.EditedMessage m))
      ({ d with edited_messages_queue := r.1 }, r.2)
  | Except.ok (UpdateKind.ChannelPost p) =>
      let r := send d.channel_posts_queue p (variantOf (UpdateKind.ChannelPost p))
      ({ d with channel_posts_queue := r.1 }, r.2)
  | Except.ok (UpdateKind.EditedChannelPost p) =>
      let r := send d.edited_channel_posts_queue p
        (variantOf (UpdateKind.EditedChannelPost p))
      ({ d with edited_channel_posts_queue := r.1 }, r.2)
  | Except.ok (UpdateKind.InlineQuery q) =>
      let r := send d.inline_queries_queue q (variantOf (UpdateKind.InlineQuery q))
      ({ d with inline_queries_queue := r.1 }, r.2)
  | Except.ok (UpdateKind.ChosenInlineResult c) =>
      let r := send d.chosen_inline_results_queue c
        (variantOf (UpdateKind.ChosenInlineResult c))
      ({ d with chosen_inline_results_queue := r.1 }, r.2)
  | Except.ok (UpdateKind.CallbackQuery q) =>
      let r := send d.callback_queries_queue q (variantOf (UpdateKind.CallbackQuery q))
      ({ d with callback_queries_queue := r.1 }, r.2)
  | Except.ok (UpdateKind.ShippingQuery q) =>
      let r := send d.shipping_queries_queue q (variantOf (UpdateKind.ShippingQuery q))
      ({ d with shipping_queries_queue := r.1 }, r.2)
  | Except.ok (UpdateKind.PreCheckoutQuery q) =>
      let r := send d.pre_checkout_queries_queue q
        (variantOf (UpdateKind.PreCheckoutQuery q))
      ({ d with pre_checkout_queries_queue := r.1 }, r.2)
  | Except.ok (UpdateKind.Poll p) =>
      let r := send d.polls_queue p (variantOf (UpdateKind.Poll p))
      ({ d with polls_queue := r.1 }, r.2)
  | Except.ok (UpdateKind.PollAnswer a) =>
      let r := send d.poll_answers_queue a (variantOf (UpdateKind.PollAnswer a))
      ({ d with poll_answers_queue := r.1 }, r.2)
  | Except.ok (UpdateKind.MyChatMember c) =>
      let r := send d.my_chat_members_queue c (variantOf (UpdateKind.MyChatMember c))
      ({ d with my_chat_members_queue := r.1 }, r.2)
  | Except.ok (UpdateKind.ChatMember c) =>
      let r := send d.chat_members_queue c (variantOf (UpdateKind.ChatMember c))
      ({ d with chat_members_queue := r.1 }, r.2)

/-- The pump feeding a sequence of listener results through
process_update, accumulating all observable events. -/
def process_all {α ε : Type} (d : Dispatcher α) :
    List (Except ε (UpdateKind α)) → Dispatcher α × List (DispatchEvent ε)
  | [] => (d, [])
  | u :: us =>
      let r := d.process_update u
      let rest := process_all r.1 us
      (rest.1, r.2 ++ rest.2)

/-- Payloads of the Ok updates of a given tag, in arrival order. -/
def payloadsOf {α ε : Type} (t : KindTag) (us : List (Except ε (UpdateKind α))) :
    List α :=
  us.filterMap fun u =>
    match u with
    | Except.ok k => if tagOf k = t then some (payloadOf k) else none
    | Except.error _ => none

/-- Rust std::ops::ControlFlow, as used by dptree handler dispatch. -/
inductive ControlFlow (β γ : Type) where
  | Break (b : β)
  | Continue (c : γ)
  deriving DecidableEq, Repr

/-- The dependency map built per update by the predicate-chain
dispatcher, abstracted to the three insertions the source performs:
the update, the requester and the cached get_me result. -/
structure Deps (υ ρ μ : Type) where
  update : υ
  requester : ρ
  me : μ
  deriving DecidableEq, Repr

def getMePanicMsg : String := "Failed to retrieve me"

def defaultUnreachableMsg : String :=
  "This is unreachable due to Infallible type in the DefaultHandler type"

/-- Observable effects of one predicate-chain process_update call. -/
inductive Event2 (ε η : Type) where
  | listenerErrorHandled (e : ε)
  | handlerErrorHandled (e : η)
  | defaultHandled
  deriving DecidableEq, Repr

/-- Outcome of one predicate-chain process_update call: either the
pump loop continues, having produced the listed effects, or the run
panicked. -/
inductive Outcome2 (ε η : Type) where
  | continues (events : List (Event2 ε η))
  | panicked (msg : String)
  deriving DecidableEq, Repr

/-- Dispatcher::process_update (src/dispatching2/dispatcher.rs, lines
194-228). A listener error goes to the listener error handler. For an
Ok update, the dependency map is built from the update, the requester
and get_me (whose failure panics via expect). The composed handler is
dispatched: Break Ok ends processing, Break Err routes the error to
the configured error handler, and Continue falls through to the
default handler, whose own Continue arm is unreachable!. The handler
results are inputs, keeping the dptree dispatch itself abstract. -/
def process_update2 {υ ρ μ ε η ξ : Type}
    (requester : ρ)
    (handler : Deps υ ρ μ → ControlFlow (Except η Unit) (Deps υ ρ μ))
    (default_handler : Deps υ ρ μ → ControlFlow Unit (Deps υ ρ μ))
    (get_me : Except ξ μ)
    (update : Except ε υ) : Outcome2 ε η :=
  match update with
  | Except.error e => Outcome2.continues [Event2.listenerErrorHandled e]
  | Except.ok upd =>
      match get_me with
      | Except.error _ => Outcome2.panicked getMePanicMsg
      | Except.ok me =>
          let deps : Deps υ ρ μ := ⟨upd, requester, me⟩
          match handler deps with
          | ControlFlow.Break (Except.ok ()) => Outcome2.continues []
          | ControlFlow.Break (Except.error err) =>
              Outcome2.continues [Event2.handlerErrorHandled err]
          | ControlFlow.Continue deps2 =>
              match default_handler deps2 with
              | ControlFlow.Break () => Outcome2.continues [Event2.defaultHandled]
              | ControlFlow.Continue _ => Outcome2.panicked defaultUnreachableMsg

/-- Modelled from the spec: dptree chain composition is not under
src/. A chain is an ordered list of predicate-guarded nodes; a node
returns some result when it fully handles the update and none when it
declines. Dispatch walks the chain in registration order; the first
node that handles terminates the walk with its result, and if every
node declines the dispatch returns Continue with the dependency map. -/
def chainDispatch {δ η : Type} (nodes : List (δ → Option (Except η Unit))) (deps : δ) :
    ControlFlow (Except η Unit) δ :=
  match nodes with
  | [] => ControlFlow.Continue deps
  | n :: ns =>
      match n deps with
      | some r => ControlFlow.Break r
      | none => chainDispatch ns deps

/-- Modelled from the spec: dptree::endpoint is not under src/. An
endpoint always fully handles its input (the default handler is
total), running its action and breaking with its result. -/
def endpoint {δ : Type} (f : δ → Unit) : δ → ControlFlow Unit δ :=
  fun d => ControlFlow.Break (f d)

/-! Helper lemmas. -/

/-- Factored form of the thirteen Ok arms of process_update. -/
theorem process_update_ok_eq {α ε : Type} (d : Dispatcher α) (k : UpdateKind α) :
    @Dispatcher.process_update α ε d (Except.ok k)
      = (setQueue d (tagOf k)
            (@send α ε (queueOf d (tagOf k)) (payloadOf k) (variantOf k)).1,
          (@send α ε (queueOf d (tagOf k)) (payloadOf k) (variantOf k)).2) := by
  cases k <;> rfl

theorem queueOf_setQueue {α : Type} (d : Dispatcher α) (t : KindTag) (q : Tx α)
    (t' : KindTag) :
    queueOf (setQueue d t q) t' = if t' = t then q else queueOf d t' := by
  cases t <;> cases t' <;> simp [setQueue, queueOf]

/-! Claim theorems. -/

/-- Claim C1: requesting shutdown while the coordinator is Running
succeeds, moves the register to ShuttingDown and returns an awaitable
of the completion Notify; requesting it while ShuttingDown succeeds
idempotently, returning an awaitable of the same Notify and leaving
the register unchanged; requesting it while IsntRunning fails with
ShutdownError.IsntRunning. -/
theorem c1_shutdown_request_trichotomy (n : Nat) :
    ShutdownToken.shutdown ⟨ShutdownState.Running, n⟩
      = (PanicOr.ok (Except.ok n), ⟨ShutdownState.ShuttingDown, n⟩)
    ∧ ShutdownToken.shutdown ⟨ShutdownState.ShuttingDown, n⟩
      = (PanicOr.ok (Except.ok n), ⟨ShutdownState.ShuttingDown, n⟩)
    ∧ ShutdownToken.shutdown ⟨ShutdownState.IsntRunning, n⟩
      = (PanicOr.ok (Except.error ShutdownError.IsntRunning),
          ⟨ShutdownState.IsntRunning, n⟩) :=
  ⟨rfl, rfl, rfl⟩

/-- Claim C9: the register is mutated by shutdown_inner only through
the successful Running to ShuttingDown compare-exchange, and a failed
request leaves the register exactly as it was. -/
theorem c9_failed_shutdown_leaves_state (s : ShutdownState) :
    ((shutdown_inner s).2
        = if s = ShutdownState.Running then ShutdownState.ShuttingDown else s)
    ∧ (∀ e : ShutdownError,
        (shutdown_inner s).1 = PanicOr.ok (Except.error e) → (shutdown_inner s).2 = s) := by
  constructor
  · cases s <;> rfl
  · intro e h
    cases s
    · exact absurd h (by simp [shutdown_inner, stateCompareExchange])
    · exact absurd h (by simp [shutdown_inner, stateCompareExchange])
    · rfl

/-- Witness for claim C9, at the only failing state. -/
theorem c9_witness : (shutdown_inner ShutdownState.IsntRunning).2
    = ShutdownState.IsntRunning :=
  (c9_failed_shutdown_leaves_state ShutdownState.IsntRunning).2
    ShutdownError.IsntRunning rfl

/-- Claim C8: the register reaches Running only through the pump-start
compare-exchange from IsntRunning (Idle); dispatch_start succeeds with
Running exactly when the current state is IsntRunning, and any other
state observed at pump start aborts the run with the double-start
panic rather than returning a recoverable error. -/
theorem c8_running_entered_only_from_idle :
    (∀ (s : ShutdownState) (e : CoordEvent), s ≠ ShutdownState.Running →
        coordStep s e = ShutdownState.Running →
        e = CoordEvent.startCAS ∧ s = ShutdownState.IsntRunning)
    ∧ (∀ s : ShutdownState,
        dispatch_start s = PanicOr.ok ShutdownState.Running ↔ s = ShutdownState.IsntRunning)
    ∧ (∀ s : ShutdownState, s ≠ ShutdownState.IsntRunning →
        dispatch_start s = PanicOr.panic doubleStartPanicMsg) := by
  refine ⟨?_, ?_, ?_⟩ <;> decide

/-- Witness for claim C8: a start from IsntRunning, and a double start
from Running which panics. -/
theorem c8_witness :
    (CoordEvent.startCAS = CoordEvent.startCAS
        ∧ ShutdownState.IsntRunning = ShutdownState.IsntRunning)
    ∧ dispatch_start ShutdownState.Running = PanicOr.panic doubleStartPanicMsg :=
  ⟨c8_running_entered_only_from_idle.1 ShutdownState.IsntRunning CoordEvent.startCAS
      (by decide) (by decide),
    c8_running_entered_only_from_idle.2.2 ShutdownState.Running (by decide)⟩

theorem c10_aux (e : CoordEvent) (r : Nat) (h : (ShutdownState.fromU8 r).isSome = true) :
    (ShutdownState.fromU8 (rawStep r e)).isSome = true := by
  have hr : r = 0 ∨ r = 1 ∨ r = 2 := by
    by_contra hc
    push_neg at hc
    simp [ShutdownState.fromU8, ShutdownState.toU8, hc.1, hc.2.1, hc.2.2] at h
  cases e <;> rcases hr with rfl | rfl | rfl <;> decide

/-- Claim C10: after any sequence of coordinator operations, the raw
byte in the atomic register is the discriminant of one of the three
ShutdownState variants, so ShutdownState.from_u8 decodes every load
and its unreachable arm is never executed. -/
theorem c10_register_always_decodes (es : List CoordEvent) :
    (ShutdownState.fromU8 (rawRun es)).isSome = true := by
  suffices h : ∀ (l : List CoordEvent) (r : Nat), (ShutdownState.fromU8 r).isSome = true →
      (ShutdownState.fromU8 (l.foldl rawStep r)).isSome = true by
    exact h es (ShutdownState.toU8 ShutdownState.IsntRunning) (by decide)
  intro l
  induction l with
  | nil => intro r h; exact h
  | cons e tl ih => intro r h; exact ih (rawStep r e) (c10_aux e r h)

/-- Counterexample to claim C2: in a run that ends because of an
explicit shutdown request (register ShuttingDown at loop exit), the
completion broadcast happens while the register still holds
ShuttingDown; the store of IsntRunning (Idle) comes only after the
broadcast, so the state at the moment of broadcast is not Idle. -/
theorem c2_counterexample :
    annotateStates ShutdownState.ShuttingDown (pump_epilogue ShutdownState.ShuttingDown)
      = [(PumpEvent.waitForHandlers, ShutdownState.ShuttingDown),
          (PumpEvent.notifyWaiters, ShutdownState.ShuttingDown),
          (PumpEvent.storeState ShutdownState.IsntRunning, ShutdownState.ShuttingDown)]
    ∧ ShutdownState.ShuttingDown ≠ ShutdownState.IsntRunning := by
  decide

/-- Claim C2, amended: when the run ends because of an explicit
shutdown request, the pump first waits for every spawned worker to
terminate, then broadcasts completion exactly once while the register
still holds ShuttingDown, and stores IsntRunning (Idle) as its final
action, so the state after the epilogue finishes is Idle; the
dispatching2 epilogue is identical except that it has no spawned
workers to wait for. -/
theorem c2_amended_broadcast_after_drain :
    annotateStates ShutdownState.ShuttingDown (pump_epilogue ShutdownState.ShuttingDown)
      = [(PumpEvent.waitForHandlers, ShutdownState.ShuttingDown),
          (PumpEvent.notifyWaiters, ShutdownState.ShuttingDown),
          (PumpEvent.storeState ShutdownState.IsntRunning, ShutdownState.ShuttingDown)]
    ∧ finalState ShutdownState.ShuttingDown (pump_epilogue ShutdownState.ShuttingDown)
      = ShutdownState.IsntRunning
    ∧ annotateStates ShutdownState.ShuttingDown (pump_epilogue2 ShutdownState.ShuttingDown)
      = [(PumpEvent.notifyWaiters, ShutdownState.ShuttingDown),
          (PumpEvent.storeState ShutdownState.IsntRunning, ShutdownState.ShuttingDown)]
    ∧ finalState ShutdownState.ShuttingDown (pump_epilogue2 ShutdownState.ShuttingDown)
      = ShutdownState.IsntRunning
    ∧ pump_epilogue ShutdownState.IsntRunning
      = [PumpEvent.waitForHandlers, PumpEvent.storeState ShutdownState.IsntRunning] := by
  decide

/-- Counterexample to claim C3: for a listener declaring a two-second
poll-timeout hint, the source computes hint plus one second (three
seconds), not the maximum of hint and the one-second floor (two
seconds). -/
theorem c3_counterexample :
    shutdown_check_timeout_for (some (2 * minShutdownCheckTimeout))
      ≠ spec_read_timeout (some (2 * minShutdownCheckTimeout)) := by
  decide

/-- Claim C3, amended: the per-iteration read-timeout equals the
declared poll-timeout hint (zero when absent) plus the fixed
one-second floor whenever that sum does not overflow (falling back to
the bare hint on overflow), and it is always at least the maximum of
the hint and the floor. -/
theorem c3_amended_timeout_is_hint_plus_floor (h : Option Nat) :
    (h.getD 0 + minShutdownCheckTimeout ≤ durationMax →
      shutdown_check_timeout_for h = h.getD 0 + minShutdownCheckTimeout)
    ∧ spec_read_timeout h ≤ shutdown_check_timeout_for h := by
  constructor
  · intro hle
    simp [shutdown_check_timeout_for, durationCheckedAdd, hle]
  · by_cases hle : h.getD 0 + minShutdownCheckTimeout ≤ durationMax
    · simp [shutdown_check_timeout_for, durationCheckedAdd, hle, spec_read_timeout]
    · simp [shutdown_check_timeout_for, durationCheckedAdd, hle, spec_read_timeout]
      have hbig : 2 * minShutdownCheckTimeout ≤ durationMax := by decide
      simp [minShutdownCheckTimeout] at hbig hle ⊢
      omega

/-- Witness for claim C3 as amended, at the absent-hint input. -/
theorem c3_witness :
    shutdown_check_timeout_for none = (none : Option Nat).getD 0 + minShutdownCheckTimeout
    ∧ spec_read_timeout none ≤ shutdown_check_timeout_for none :=
  ⟨(c3_amended_timeout_is_hint_plus_floor none).1 (by decide),
    (c3_amended_timeout_is_hint_plus_floor none).2⟩

/-- Invariant of the consume-once stop guard: while the token is still
present no stop has been invoked, and once it is gone at most one stop
has been invoked. -/
def stopInv {τ : Type} (s : PumpLoopState τ) : Prop :=
  match s.stop_token with
  | some _ => s.stops_invoked = 0
  | none => s.stops_invoked ≤ 1

theorem stopInv_shutdown_check {τ : Type} (s : PumpLoopState τ) (o : ShutdownState)
    (h : stopInv s) : stopInv (shutdown_check s o) := by
  unfold shutdown_check
  by_cases ho : o = ShutdownState.ShuttingDown
  · simp [ho]
    match hs : s.stop_token with
    | some t => simp [stopInv] at h ⊢; simp [hs] at h ⊢; omega
    | none => simp [hs]; exact h
  · simp [ho]; exact h

theorem stopInv_run_checks {τ : Type} (obs : List ShutdownState) (s : PumpLoopState τ)
    (h : stopInv s) : stopInv (run_checks s obs) := by
  induction obs generalizing s with
  | nil => exact h
  | cons o tl ih => exact ih (shutdown_check s o) (stopInv_shutdown_check s o h)

/-- Claim C6: over any run of the pump loop, whatever sequence of
register contents the per-iteration shutdown checks observe, the stop
capability of the listener is invoked at most once: the Option.take
guard consumes the token on first use. -/
theorem c6_stop_invoked_at_most_once (τ : Type) (tok : τ) (obs : List ShutdownState) :
    (run_checks ⟨some tok, 0⟩ obs).stops_invoked ≤ 1 := by
  have h := stopInv_run_checks obs (⟨some tok, 0⟩ : PumpLoopState τ) (by simp [stopInv])
  unfold stopInv at h
  match hs : (run_checks (⟨some tok, 0⟩ : PumpLoopState τ) obs).stop_token with
  | some t => simp [hs] at h; omega
  | none => simp [hs] at h; exact h

/-- Counterexample to claim C4: a failure of the per-update get_me
dependency fetch terminates the predicate-chain run abnormally via
expect, although it is neither a source error, nor a handler error,
nor one of the listed invariant violations (double start,
default-handler failure). -/
theorem c4_counterexample :
    @process_update2 Unit Unit Unit Unit Unit Unit ()
        (fun d => ControlFlow.Continue d) (endpoint fun _ => ())
        (Except.error ()) (Except.ok ())
      = Outcome2.panicked getMePanicMsg
    ∧ getMePanicMsg ≠ doubleStartPanicMsg
    ∧ getMePanicMsg ≠ defaultUnreachableMsg := by
  refine ⟨rfl, ?_, ?_⟩ <;> decide

/-- Claim C4, amended: the pump never terminates because of a handler
error or a source error; a source error is routed to the listener
error handler and the loop continues, a handler error is routed to the
configured error handler and the loop continues, and the only abnormal
terminations of process_update are the get_me dependency-fetch panic
and the unreachable default-handler fallthrough (double start aborts
before the loop, in dispatch_start). The last conjunct covers the
fixed-kind variant, whose process_update routes a source error to the
listener error handler and cannot terminate the run. -/
theorem c4_amended_errors_never_stop_pump (υ ρ μ ε η ξ α : Type) :
    (∀ (r : ρ) (handler : Deps υ ρ μ → ControlFlow (Except η Unit) (Deps υ ρ μ))
        (dh : Deps υ ρ μ → ControlFlow Unit (Deps υ ρ μ)) (g : Except ξ μ) (e : ε),
        process_update2 r handler dh g (Except.error e)
          = Outcome2.continues [Event2.listenerErrorHandled e])
    ∧ (∀ (r : ρ) (handler : Deps υ ρ μ → ControlFlow (Except η Unit) (Deps υ ρ μ))
        (dh : Deps υ ρ μ → ControlFlow Unit (Deps υ ρ μ)) (me : μ) (u : υ) (err : η),
        handler ⟨u, r, me⟩ = ControlFlow.Break (Except.error err) →
        @process_update2 υ ρ μ ε η ξ r handler dh (Except.ok me) (Except.ok u)
          = Outcome2.continues [Event2.handlerErrorHandled err])
    ∧ (∀ (r : ρ) (handler : Deps υ ρ μ → ControlFlow (Except η Unit) (Deps υ ρ μ))
        (dh : Deps υ ρ μ → ControlFlow Unit (Deps υ ρ μ)) (g : Except ξ μ)
        (u : Except ε υ) (m : String),
        process_update2 r handler dh g u = Outcome2.panicked m →
        m = getMePanicMsg ∨ m = defaultUnreachableMsg)
    ∧ (∀ (d : Dispatcher α) (e : ε),
        @Dispatcher.process_update α ε d (Except.error e)
          = (d, [DispatchEvent.listenerErrorHandled e])) := by
  refine ⟨fun r handler dh g e => rfl, ?_, ?_, fun d e => rfl⟩
  · intro r handler dh me u err hb
    simp [process_update2, hb]
  · intro r handler dh g u m hp
    cases u with
    | error e => simp [process_update2] at hp
    | ok upd =>
      cases g with
      | error x =>
        simp [process_update2] at hp
        exact Or.inl hp.symm
      | ok me =>
        cases hh : handler ⟨upd, r, me⟩ with
        | Break b =>
          cases b with
          | ok v => cases v; simp [process_update2, hh] at hp
          | error err => simp [process_update2, hh] at hp
        | Continue c =>
          cases hd : dh c with
          | Break v => cases v; simp [process_update2, hh, hd] at hp
          | Continue c2 =>
            simp [process_update2, hh, hd] at hp
            exact Or.inr hp.symm

/-- Witness for claim C4 as amended: a handler error is routed to the
error handler and the loop continues, and the get_me panic message is
one of the two possible panic messages of process_update. -/
theorem c4_witness :
    @process_update2 Unit Unit Unit Unit Unit Unit ()
        (fun _ => ControlFlow.Break (Except.error ())) (endpoint fun _ => ())
        (Except.ok ()) (Except.ok ())
      = Outcome2.continues [Event2.handlerErrorHandled ()]
    ∧ (getMePanicMsg = getMePanicMsg ∨ getMePanicMsg = defaultUnreachableMsg) :=
  ⟨(c4_amended_errors_never_stop_pump Unit Unit Unit Unit Unit Unit Nat).2.1 ()
      (fun _ => ControlFlow.Break (Except.error ())) (endpoint fun _ => ()) () () () rfl,
    (c4_amended_errors_never_stop_pump Unit Unit Unit Unit Unit Unit Nat).2.2.1 ()
      (fun d => ControlFlow.Continue d) (endpoint fun _ => ()) (Except.error ())
      (Except.ok ()) getMePanicMsg rfl⟩

/-- Claim C7: in the predicate-chain dispatcher, for an Ok update with
its dependencies fetched, a chain that breaks with success ends
processing with nothing further run, a chain that breaks with a typed
handler error surfaces that error to the configured error handler, a
chain on which every node declines falls through to the endpoint
default handler, which always fully handles the update (its
fallthrough arm never runs), and a node that handles the update
terminates the walk regardless of the nodes after it. -/
theorem c7_predicate_chain_semantics (υ ρ μ ε η ξ : Type) :
    (∀ (r : ρ) (dh : Deps υ ρ μ → ControlFlow Unit (Deps υ ρ μ)) (me : μ) (u : υ)
        (nodes : List (Deps υ ρ μ → Option (Except η Unit))),
        chainDispatch nodes ⟨u, r, me⟩ = ControlFlow.Break (Except.ok ()) →
        @process_update2 υ ρ μ ε η ξ r (chainDispatch nodes) dh (Except.ok me)
            (Except.ok u)
          = Outcome2.continues [])
    ∧ (∀ (r : ρ) (dh : Deps υ ρ μ → ControlFlow Unit (Deps υ ρ μ)) (me : μ) (u : υ)
        (nodes : List (Deps υ ρ μ → Option (Except η Unit))) (err : η),
        chainDispatch nodes ⟨u, r, me⟩ = ControlFlow.Break (Except.error err) →
        @process_update2 υ ρ μ ε η ξ r (chainDispatch nodes) dh (Except.ok me)
            (Except.ok u)
          = Outcome2.continues [Event2.handlerErrorHandled err])
    ∧ (∀ (r : ρ) (f : Deps υ ρ μ → Unit) (me : μ) (u : υ)
        (nodes : List (Deps υ ρ μ → Option (Except η Unit))) (d2 : Deps υ ρ μ),
        chainDispatch nodes ⟨u, r, me⟩ = ControlFlow.Continue d2 →
        @process_update2 υ ρ μ ε η ξ r (chainDispatch nodes) (endpoint f)
            (Except.ok me) (Except.ok u)
          = Outcome2.continues [Event2.defaultHandled])
    ∧ (∀ (n : Deps υ ρ μ → Option (Except η Unit))
        (ns : List (Deps υ ρ μ → Option (Except η Unit))) (deps : Deps υ ρ μ)
        (res : Except η Unit),
        n deps = some res → chainDispatch (n :: ns) deps = ControlFlow.Break res) := by
  refine ⟨?_, ?_, ?_, ?_⟩
  · intro r dh me u nodes hc
    simp [process_update2, hc]
  · intro r dh me u nodes err hc
    simp [process_update2, hc]
  · intro r f me u nodes d2 hc
    simp [process_update2, hc, endpoint]
  · intro n ns deps res hn
    simp [chainDispatch, hn]

/-- Witness for claim C7: with a declining node, a succeeding node and
a failing node in that order, the update is handled by the succeeding
node, the failing node is never reached, and with an empty chain the
default endpoint handles the update. -/
theorem c7_witness :
    @process_update2 Unit Unit Unit Unit Unit Unit ()
        (chainDispatch [fun _ => none, fun _ => some (Except.ok ()),
          fun _ => some (Except.error ())])
        (endpoint fun _ => ()) (Except.ok ()) (Except.ok ())
      = Outcome2.continues []
    ∧ chainDispatch
        [(fun _ => some (Except.ok ())),
          (fun _ => some (Except.error ()) : Deps Unit Unit Unit → Option (Except Unit Unit))]
        (⟨(), (), ()⟩ : Deps Unit Unit Unit)
      = ControlFlow.Break (Except.ok ())
    ∧ @process_update2 Unit Unit Unit Unit Unit Unit ()
        (chainDispatch ([] : List (Deps Unit Unit Unit → Option (Except Unit Unit))))
        (endpoint fun _ => ()) (Except.ok ()) (Except.ok ())
      = Outcome2.continues [Event2.defaultHandled] :=
  ⟨(c7_predicate_chain_semantics Unit Unit Unit Unit Unit Unit).1 ()
      (endpoint fun _ => ()) () ()
      [fun _ => none, fun _ => some (Except.ok ()), fun _ => some (Except.error ())] rfl,
    (c7_predicate_chain_semantics Unit Unit Unit Unit Unit Unit).2.2.2
      (fun _ => some (Except.ok ())) [fun _ => some (Except.error ())] ⟨(), (), ()⟩
      (Except.ok ()) rfl,
    (c7_predicate_chain_semantics Unit Unit Unit Unit Unit Unit).2.2.1 ()
      (fun _ => ()) () () [] ⟨(), (), ()⟩ rfl⟩

theorem queueOf_process_ok {α ε : Type} (d : Dispatcher α) (k : UpdateKind α)
    (t : KindTag) :
    queueOf (@Dispatcher.process_update α ε d (Except.ok k)).1 t
      = if t = tagOf k
          then (@send α ε (queueOf d (tagOf k)) (payloadOf k) (variantOf k)).1
          else queueOf d t := by
  rw [process_update_ok_eq]
  exact queueOf_setQueue d (tagOf k) _ t

theorem events_process_ok {α ε : Type} (d : Dispatcher α) (k : UpdateKind α) :
    (@Dispatcher.process_update α ε d (Except.ok k)).2
      = (@send α ε (queueOf d (tagOf k)) (payloadOf k) (variantOf k)).2 := by
  rw [process_update_ok_eq]

theorem c5_order_aux {α ε : Type} (us : List (Except ε (UpdateKind α))) :
    ∀ (d : Dispatcher α) (t : KindTag) (buf : List α),
      queueOf d t = some ⟨true, buf⟩ →
      queueOf (process_all d us).1 t = some ⟨true, buf ++ payloadsOf t us⟩ := by
  induction us with
  | nil => intro d t buf hq; simp [process_all, payloadsOf, hq]
  | cons u tl ih =>
    intro d t buf hq
    cases u with
    | error e =>
      simpa [process_all, Dispatcher.process_update, payloadsOf] using ih d t buf hq
    | ok k =>
      by_cases ht : t = tagOf k
      · subst ht
        have hq2 : queueOf ((@Dispatcher.process_update α ε d (Except.ok k)).1) (tagOf k)
            = some ⟨true, buf ++ [payloadOf k]⟩ := by
          rw [queueOf_process_ok]
          simp [hq, send]
        have hrec := ih (@Dispatcher.process_update α ε d (Except.ok k)).1 (tagOf k)
          (buf ++ [payloadOf k]) hq2
        simp [process_all, payloadsOf] at hrec ⊢
        simp [hrec]
      · have ht2 : ¬(tagOf k = t) := fun hx => ht hx.symm
        have hq2 : queueOf ((@Dispatcher.process_update α ε d (Except.ok k)).1) t
            = some ⟨true, buf⟩ := by
          rw [queueOf_process_ok]
          simp [ht, hq]
        have hrec := ih (@Dispatcher.process_update α ε d (Except.ok k)).1 t buf hq2
        simp [process_all, payloadsOf, ht2] at hrec ⊢
        exact hrec

/-- Claim C5: in the fixed-kind dispatcher, processing an Ok update
touches only the queue registered for its kind; over any sequence of
listener results, a registered live queue receives exactly the
payloads of the Ok updates of its kind in arrival order; an update
whose kind has no registered queue is dropped with no state change and
no event; and an update whose worker receiver is gone is dropped with
the send failure logged and every queue left unchanged, the pump
continuing either way. -/
theorem c5_fixed_kind_routing (α ε : Type) :
    (∀ (d : Dispatcher α) (k : UpdateKind α) (t : KindTag), t ≠ tagOf k →
        queueOf (@Dispatcher.process_update α ε d (Except.ok k)).1 t = queueOf d t)
    ∧ (∀ (d : Dispatcher α) (us : List (Except ε (UpdateKind α))) (t : KindTag)
        (buf : List α), queueOf d t = some ⟨true, buf⟩ →
        queueOf (process_all d us).1 t = some ⟨true, buf ++ payloadsOf t us⟩)
    ∧ (∀ (d : Dispatcher α) (k : UpdateKind α), queueOf d (tagOf k) = none →
        (∀ t, queueOf (@Dispatcher.process_update α ε d (Except.ok k)).1 t = queueOf d t)
          ∧ (@Dispatcher.process_update α ε d (Except.ok k)).2 = [])
    ∧ (∀ (d : Dispatcher α) (k : UpdateKind α) (buf : List α),
        queueOf d (tagOf k) = some ⟨false, buf⟩ →
        (∀ t, queueOf (@Dispatcher.process_update α ε d (Except.ok k)).1 t = queueOf d t)
          ∧ (@Dispatcher.process_update α ε d (Except.ok k)).2
            = [DispatchEvent.sendFailedLogged (variantOf k)]) := by
  refine ⟨?_, ?_, ?_, ?_⟩
  · intro d k t ht
    rw [queueOf_process_ok]
    simp [ht]
  · intro d us t buf hq
    exact c5_order_aux us d t buf hq
  · intro d k hq
    constructor
    · intro t
      rw [queueOf_process_ok]
      by_cases ht : t = tagOf k
      · subst ht; simp [hq, send]
      · simp [ht]
    · rw [events_process_ok]
      simp [hq, send]
  · intro d k buf hq
    constructor
    · intro t
      rw [queueOf_process_ok]
      by_cases ht : t = tagOf k
      · subst ht; simp [hq, send]
      · simp [ht]
    · rw [events_process_ok]
      simp [hq, send]

/-- Fixed-kind dispatcher used by the C5 witness: a live message
worker, a callback-query worker whose receiver is gone, and no other
registrations. -/
def d0 : Dispatcher Nat :=
  ⟨some ⟨true, []⟩, none, none, none, none, none, some ⟨false, []⟩, none, none, none,
    none, none, none⟩

/-- Witness for claim C5 on concrete inputs: a message update leaves
the poll queue alone; two message updates around a listener error
arrive in order on the message queue; a poll update with no registered
queue changes nothing and emits nothing; a callback query whose worker
receiver is gone leaves the queue unchanged and logs the send
failure. -/
theorem c5_witness :
    queueOf (@Dispatcher.process_update Nat Unit d0
        (Except.ok (UpdateKind.Message 7))).1 KindTag.Poll = queueOf d0 KindTag.Poll
    ∧ queueOf (process_all d0 [Except.ok (UpdateKind.Message 7), Except.error (),
          Except.ok (UpdateKind.Message 8)]).1 KindTag.Message
      = some ⟨true, ([] : List Nat) ++ payloadsOf KindTag.Message
          [Except.ok (UpdateKind.Message 7), Except.error (),
            Except.ok (UpdateKind.Message 8)]⟩
    ∧ queueOf (@Dispatcher.process_update Nat Unit d0
        (Except.ok (UpdateKind.Poll 1))).1 KindTag.Poll = queueOf d0 KindTag.Poll
    ∧ (@Dispatcher.process_update Nat Unit d0 (Except.ok (UpdateKind.Poll 1))).2 = []
    ∧ queueOf (@Dispatcher.process_update Nat Unit d0
        (Except.ok (UpdateKind.CallbackQuery 3))).1 KindTag.CallbackQuery
      = queueOf d0 KindTag.CallbackQuery
    ∧ (@Dispatcher.process_update Nat Unit d0 (Except.ok (UpdateKind.CallbackQuery 3))).2
      = [DispatchEvent.sendFailedLogged (variantOf (UpdateKind.CallbackQuery 3))] :=
  ⟨(c5_fixed_kind_routing Nat Unit).1 d0 (UpdateKind.Message 7) KindTag.Poll (by decide),
    (c5_fixed_kind_routing Nat Unit).2.1 d0 [Except.ok (UpdateKind.Message 7),
      Except.error (), Except.ok (UpdateKind.Message 8)] KindTag.Message [] rfl,
    ((c5_fixed_kind_routing Nat Unit).2.2.1 d0 (UpdateKind.Poll 1) rfl).1 KindTag.Poll,
    ((c5_fixed_kind_routing Nat Unit).2.2.1 d0 (UpdateKind.Poll 1) rfl).2,
    ((c5_fixed_kind_routing Nat Unit).2.2.2 d0 (UpdateKind.CallbackQuery 3) [] rfl).1
      KindTag.CallbackQuery,
    ((c5_fixed_kind_routing Nat Unit).2.2.2 d0 (UpdateKind.CallbackQuery 3) [] rfl).2⟩

end Teloxide
